import Mathlib

/-!
Verification of the content rules engine of the `clg-web` Django site
(`main/models.py`, `main/views.py`, `main/admin.py`).

Python strings are modelled as `List Char` (`PyStr`).  Database tables are
lists of rows (structures mirroring the model fields that participate in
the embedded logic).  Django querysets are modelled by `List.filter` /
`List.insertionSort`; `order_by` is a deterministic stable sort on the
given key.  File storage is a list of stored file names.

External framework pieces (HTTP, templating, the ORM internals) are out of
scope; their observable semantics at the call sites (e.g. that
`QuerySet.delete()` performs a bulk delete which does not invoke the
per-instance `Model.delete`, and that `exclude(pk=None)` excludes no row)
are modelled as Django documents them.

`slugify` and `uuid4` are external collaborators: functions under test
receive their outputs as parameters.
-/

/-- A Python `str`: a sequence of characters. -/
abbrev PyStr := List Char

/-- Python `str.lower()` (restricted to per-character lowering). -/
def pyLower (s : PyStr) : PyStr := s.map Char.toLower

/-- Python `needle in haystack` substring test. -/
def pyContains (haystack needle : PyStr) : Bool :=
  haystack.tails.any (fun t => needle.isPrefixOf t)

/-- Django `field__icontains=q`: case-insensitive substring match. -/
def icontains (field q : PyStr) : Bool :=
  pyContains (pyLower field) (pyLower q)

/-- Python truthiness of an optional file/char field: `None` and the empty
string are falsy. -/
def truthyFile : Option PyStr → Bool
  | none => false
  | some s => !s.isEmpty

-- ---------------------------------------------------------------------
-- HighlightCard (main/models.py lines 123-143, main/admin.py lines 381-413)
-- ---------------------------------------------------------------------

/-- A stored `HighlightCard` row (`main/models.py`).  `created_at` is an
abstract timestamp (larger = more recent); `image` is the stored file name,
`none` for SQL NULL. -/
structure HighlightCard where
  pk : Nat
  title : PyStr
  subtitle : PyStr
  image : Option PyStr
  link : PyStr
  order : Nat
  is_active : Bool
  created_at : Nat
deriving DecidableEq, Repr

/-- The row data submitted through `HighlightCardForm`; `pk` is `none` when
adding a new card. -/
structure HighlightCardInstance where
  pk : Option Nat
  title : PyStr
  subtitle : PyStr
  image : Option PyStr
  link : PyStr
  order : Nat
  is_active : Bool
deriving DecidableEq, Repr

/-- `HighlightCardForm.MAX_ACTIVE` (main/admin.py line 386). -/
def MAX_ACTIVE : Nat := 3

/-- Validation outcome of `HighlightCardForm`.  `capExceeded count cap`
stands for the `ValidationError` whose message interpolates the current
`active_count` and `MAX_ACTIVE` (main/admin.py lines 409-412);
`missingImage` for the error of `clean_image` (line 395). -/
inductive HighlightFormError where
  | missingImage
  | capExceeded (count cap : Nat)
deriving DecidableEq, Repr

/-- `HighlightCardForm.clean_image` (main/admin.py lines 392-396): reject a
missing (falsy) image. -/
def clean_image (image : Option PyStr) : Option HighlightFormError :=
  if truthyFile image then none else some .missingImage

/-- The count taken in `HighlightCardForm.clean` (main/admin.py lines
405-407): active cards, excluding the row being edited, excluding rows with
NULL or empty image.  `exclude(pk=self.instance.pk)` with `pk = None`
excludes no row (NULL never matches). -/
def activeImageCount (db : List HighlightCard) (instPk : Option Nat) : Nat :=
  ((((db.filter (fun r => r.is_active)).filter
      (fun r => !(some r.pk == instPk))).filter
      (fun r => !(r.image == none))).filter
      (fun r => !(r.image == some []))).length

/-- Full validation of `HighlightCardForm`: field clean (`clean_image`)
then form `clean` (main/admin.py lines 398-413).  When `clean_image` fails,
`cleaned_data.get("image")` is `None` in `clean`, so the cap check is
skipped and the single image error is reported.  `none` means the form is
valid and the save succeeds. -/
def highlight_form_validate (db : List HighlightCard)
    (inst : HighlightCardInstance) : Option HighlightFormError :=
  match clean_image inst.image with
  | some e => some e
  | none =>
    if inst.is_active && truthyFile inst.image then
      let active_count := activeImageCount db inst.pk
      if MAX_ACTIVE ≤ active_count then
        some (.capExceeded active_count MAX_ACTIVE)
      else none
    else none

-- ---------------------------------------------------------------------
-- StaffProfile (main/models.py lines 345-389, 496-500, 518)
-- ---------------------------------------------------------------------

namespace StaffRole

/-- `StaffRole.HOD` value (main/models.py line 346). -/
def HOD : PyStr := "HOD".toList

/-- `StaffRole.PROFESSOR` value (line 347). -/
def PROFESSOR : PyStr := "Professor".toList

/-- `StaffRole.ASSOCIATE` value (line 348). -/
def ASSOCIATE : PyStr := "Associate Professor".toList

/-- `StaffRole.ASSISTANT` value (line 349). -/
def ASSISTANT : PyStr := "Assistant Professor".toList

/-- `StaffRole.INSTRUCTOR` value (line 350). -/
def INSTRUCTOR : PyStr := "Lab Instructor".toList

/-- `StaffRole.TECH` value (line 351). -/
def TECH : PyStr := "Technical Staff".toList

/-- `StaffRole.SUPPORT` value (line 352). -/
def SUPPORT : PyStr := "Support".toList

end StaffRole

/-- A stored `StaffProfile` row (main/models.py lines 355-375).  Field
defaults mirror the model's defaults (role `Assistant Professor`, `is_hod`
false, `order` 0, blank text fields). -/
structure StaffProfile where
  pk : Nat
  name : PyStr := []
  role : PyStr := StaffRole.ASSISTANT
  designation : PyStr := []
  qualifications : PyStr := []
  specialization : PyStr := []
  area : PyStr := []
  bio : PyStr := []
  email : PyStr := []
  phone : PyStr := []
  profile_url : PyStr := []
  photo : Option PyStr := none
  is_hod : Bool := false
  order : Nat := 0
  created_at : Nat := 0
  updated_at : Nat := 0
deriving DecidableEq, Repr

/-- The `StaffProfile` instance being saved when the `pre_save` signal
fires; `pk` is `none` for a row being created. -/
structure StaffProfileInstance where
  pk : Option Nat
  name : PyStr := []
  role : PyStr := StaffRole.ASSISTANT
  is_hod : Bool := false
deriving DecidableEq, Repr

/-- `_ensure_single_hod` (main/models.py lines 496-500), connected to
`pre_save` for `StaffProfile` (line 518).  When the incoming row has
`is_hod` or role HOD, the queryset update
`exclude(pk=instance.pk).filter(Q(is_hod=True) | Q(role=HOD))
.update(is_hod=False, role=PROFESSOR)` rewrites every matching other row;
`exclude(pk=None)` excludes no row. -/
def _ensure_single_hod (db : List StaffProfile)
    (inst : StaffProfileInstance) : List StaffProfile :=
  if inst.is_hod || inst.role == StaffRole.HOD then
    db.map (fun r =>
      if !(some r.pk == inst.pk) && (r.is_hod || r.role == StaffRole.HOD) then
        { r with is_hod := false, role := StaffRole.PROFESSOR }
      else r)
  else db

-- ---------------------------------------------------------------------
-- AboutImage (main/models.py lines 98-119)
-- ---------------------------------------------------------------------

/-- A stored `AboutImage` row (main/models.py lines 98-102).  `image` is
the stored file name (the field is required, hence not optional). -/
structure AboutImage where
  pk : Nat
  title : PyStr := []
  image : PyStr
  alt_text : PyStr := []
  created_at : Nat := 0
deriving DecidableEq, Repr

/-- Rows of the `AboutImage` table together with the file-storage backend,
modelled as the list of stored file names. -/
structure AboutState where
  rows : List AboutImage
  storage : List PyStr
deriving DecidableEq, Repr

/-- `AboutImage.delete` (main/models.py lines 116-119): the per-instance
delete removes the stored file (when the field is truthy) and then the
row. -/
def AboutImage_delete (st : AboutState) (row : AboutImage) : AboutState :=
  { rows := st.rows.filter (fun r => !(r.pk == row.pk)),
    storage := if !row.image.isEmpty then
        st.storage.filter (fun f => !(f == row.image))
      else st.storage }

/-- `AboutImage.save` on an unsaved instance (main/models.py lines
108-111).  Line 109 tests `not self.pk and AboutImage.objects.exists()`;
line 110 runs `AboutImage.objects.all().delete()`, a queryset bulk delete,
which per Django semantics removes the rows without calling
`AboutImage.delete`, so no stored file is removed by the purge.  Then
`super().save()` inserts the new row and the storage backend stores its
uploaded image. -/
def AboutImage_save_new (st : AboutState) (title image alt_text : PyStr)
    (newPk : Nat) : AboutState :=
  let st1 := if !st.rows.isEmpty then { st with rows := [] } else st
  { rows := st1.rows ++
      [{ pk := newPk, title := title, image := image, alt_text := alt_text }],
    storage := st1.storage ++ [image] }

-- ---------------------------------------------------------------------
-- Album and GalleryMedia (main/models.py lines 393-457)
-- ---------------------------------------------------------------------

/-- A stored `Album` row (main/models.py lines 393-411). -/
structure Album where
  pk : Nat
  title : PyStr := []
  slug : PyStr := []
  cover_image : Option PyStr := none
  year : Option Nat := none
  category : PyStr := []
  description : PyStr := []
  created_at : Nat := 0
deriving DecidableEq, Repr

/-- A stored `GalleryMedia` row (main/models.py lines 431-442).  `album`
holds the referenced album's pk, `none` for NULL. -/
structure GalleryMedia where
  pk : Nat
  album : Option Nat := none
  media_type : PyStr := "photo".toList
  image : Option PyStr := none
  video : Option PyStr := none
  caption : PyStr := []
  year : Option Nat := none
  created_at : Nat := 0
deriving DecidableEq, Repr

/-- The `Album` and `GalleryMedia` tables together with file storage. -/
structure GalleryState where
  albums : List Album
  media : List GalleryMedia
  storage : List PyStr
deriving DecidableEq, Repr

/-- `Album.delete` (main/models.py lines 424-427) combined with the
schema's `on_delete=SET_NULL` on `GalleryMedia.album` (line 436): the
cover-image file is removed when present, the album row is removed, and
every `GalleryMedia` row referencing the album is kept with only its
`album` column set to NULL. -/
def Album_delete (st : GalleryState) (album : Album) : GalleryState :=
  { albums := st.albums.filter (fun a => !(a.pk == album.pk)),
    media := st.media.map (fun m =>
      if m.album == some album.pk then { m with album := none } else m),
    storage := match album.cover_image with
      | some f => if !f.isEmpty then st.storage.filter (fun g => !(g == f))
                  else st.storage
      | none => st.storage }

-- ---------------------------------------------------------------------
-- Dates and datetimes (used by Exam and Event and the date parsers)
-- ---------------------------------------------------------------------

/-- A Python `datetime.date`. -/
structure Date where
  year : Nat
  month : Nat
  day : Nat
deriving DecidableEq, Repr

/-- Chronological `<=` on dates (lexicographic on year, month, day, which
matches Python date comparison on valid dates). -/
def Date.le (a b : Date) : Bool :=
  a.year < b.year || (a.year == b.year &&
    (a.month < b.month || (a.month == b.month && a.day ≤ b.day)))

/-- Chronological `<` on dates. -/
def Date.lt (a b : Date) : Bool :=
  a.year < b.year || (a.year == b.year &&
    (a.month < b.month || (a.month == b.month && a.day < b.day)))

/-- A Python `datetime`: a date plus an abstract time-of-day (seconds). -/
structure DateTime where
  date : Date
  tod : Nat
deriving DecidableEq, Repr

/-- Chronological `<=` on datetimes. -/
def DateTime.le (a b : DateTime) : Bool :=
  Date.lt a.date b.date || (a.date == b.date && a.tod ≤ b.tod)

/-- Chronological `<` on datetimes. -/
def DateTime.lt (a b : DateTime) : Bool :=
  Date.lt a.date b.date || (a.date == b.date && a.tod < b.tod)

/-- Numeric value of a digit string. -/
def digitsToNat (s : PyStr) : Nat :=
  s.foldl (fun acc c => acc * 10 + (c.toNat - '0'.toNat)) 0

/-- Gregorian leap-year rule used by Python's `datetime`. -/
def isLeapYear (y : Nat) : Bool :=
  y % 4 == 0 && (y % 100 != 0 || y % 400 == 0)

/-- Days in a month of the proleptic Gregorian calendar. -/
def daysInMonth (y m : Nat) : Nat :=
  if m == 2 then (if isLeapYear y then 29 else 28)
  else if m == 4 || m == 6 || m == 9 || m == 11 then 30
  else 31

/-- `datetime.strptime(value, "%Y-%m-%d")`, reduced to the date it yields
(the time part is midnight): `%Y` matches exactly four digits, `%m` and
`%d` one or two, the whole string must be consumed, and the fields must
form a real calendar date (year at least `MINYEAR = 1`).  `none` models
the `ValueError` that the callers catch. -/
def strptime_date (s : PyStr) : Option Date :=
  match s.splitOn '-' with
  | [ys, ms, ds] =>
    if ys.length == 4 && ys.all Char.isDigit &&
       (ms.length == 1 || ms.length == 2) && ms.all Char.isDigit &&
       (ds.length == 1 || ds.length == 2) && ds.all Char.isDigit then
      let y := digitsToNat ys
      let m := digitsToNat ms
      let d := digitsToNat ds
      if 1 ≤ y && 1 ≤ m && m ≤ 12 && 1 ≤ d && d ≤ daysInMonth y m then
        some ⟨y, m, d⟩
      else none
    else none
  | _ => none

/-- `_parse_date` (main/views.py lines 41-48): `None` and the empty string
give `None`; otherwise `strptime` with format `%Y-%m-%d`, any exception
giving `None`.  The produced aware datetime is only ever used through
`.date()`, so the date is returned directly. -/
def _parse_date (value : Option PyStr) : Option Date :=
  match value with
  | none => none
  | some s => if s.isEmpty then none else strptime_date s

-- ---------------------------------------------------------------------
-- Event and News rows (main/models.py lines 233-250, 317-325)
-- ---------------------------------------------------------------------

/-- A stored `Event` row (main/models.py lines 233-250). -/
structure Event where
  pk : Nat
  title : PyStr := []
  slug : PyStr := []
  category : PyStr := "Other".toList
  short_description : PyStr := []
  description : PyStr := []
  start_at : DateTime := ⟨⟨2000, 1, 1⟩, 0⟩
  end_at : Option DateTime := none
  venue : PyStr := []
  image : Option PyStr := none
  video : Option PyStr := none
  video_url : Option PyStr := none
  video_captions : Option PyStr := none
  is_registration_open : Bool := false
  created_at : Nat := 0
deriving DecidableEq, Repr

/-- A stored `News` row (main/models.py lines 317-325).  `published_at` is
an abstract timestamp. -/
structure News where
  pk : Nat
  title : PyStr := []
  slug : PyStr := []
  category : PyStr := "General".toList
  summary : PyStr := []
  body : PyStr := []
  image : Option PyStr := none
  published_at : Nat := 0
  is_featured : Bool := false
deriving DecidableEq, Repr

-- ---------------------------------------------------------------------
-- Slug assignment (main/models.py lines 480-493, 504-511, 515-517)
-- ---------------------------------------------------------------------

/-- The `while` loop of `_unique_slug` (main/models.py lines 487-492),
with explicit fuel (the loop terminates because successive candidates are
pairwise distinct and `existing` is finite): while the current slug is
taken, build `base[:cut] + f"-{n}"` with `cut` leaving room for the
suffix, and increment `n`. -/
def _unique_slug_loop (existing : List PyStr) (base : PyStr)
    (effMax : Nat) : Nat → Nat → PyStr → PyStr
  | 0, _, slug => slug
  | fuel + 1, n, slug =>
    if existing.contains slug then
      let suffix := '-' :: (Nat.repr n).toList
      let cut := effMax - suffix.length
      _unique_slug_loop existing base effMax fuel (n + 1) (base.take cut ++ suffix)
    else slug

/-- `_unique_slug` (main/models.py lines 480-493).  `slugVal` is the
instance's current slug value; `slugifiedTitle` is the output of the
external `slugify` on the source field (with Python `or`: it is consulted
only when `slugVal` is empty); `uuidToken` is the external
`uuid.uuid4().hex[:8]`; `rows` are the `(pk, slug)` pairs of all stored
rows of the model; `instPk` is the instance's pk (`none` when creating).
`max_length or 240` makes `None` (and 0) fall back to 240.  The
uniqueness check is `filter(slug=slug).exclude(pk=instance.pk).exists()`;
`exclude(pk=None)` excludes no row. -/
def _unique_slug (rows : List (Nat × PyStr)) (instPk : Option Nat)
    (slugVal slugifiedTitle uuidToken : PyStr)
    (max_length : Option Nat) : PyStr :=
  let effMax := match max_length with
    | none => 240
    | some m => if m == 0 then 240 else m
  let base0 := if slugVal.isEmpty then slugifiedTitle else slugVal
  let base1 := base0.take effMax
  let base := if base1.isEmpty then uuidToken else base1
  let existing := (rows.filter (fun r => !(some r.1 == instPk))).map
    (fun r => r.2)
  _unique_slug_loop existing base effMax (existing.length + 2) 2 base

/-- The `_pre_slug` handler (main/models.py lines 504-511) for one model:
assign a slug only when the instance's slug is falsy, using the model's
max length. -/
def _pre_slug_assign (rows : List (Nat × PyStr)) (instPk : Option Nat)
    (slugVal slugifiedTitle uuidToken : PyStr) (maxLength : Nat) : PyStr :=
  if slugVal.isEmpty then
    _unique_slug rows instPk slugVal slugifiedTitle uuidToken (some maxLength)
  else slugVal

/-- `_pre_slug` for an `Event` instance (models.py lines 505-506, signal
connected on line 515): max length 220, uniqueness checked against the
stored `Event` rows. -/
def Event_assign_slug (db : List Event) (instPk : Option Nat)
    (slugVal slugifiedTitle uuidToken : PyStr) : PyStr :=
  _pre_slug_assign (db.map (fun e => (e.pk, e.slug))) instPk
    slugVal slugifiedTitle uuidToken 220

/-- `_pre_slug` for a `News` instance (models.py lines 507-508, signal
connected on line 516): max length 240. -/
def News_assign_slug (db : List News) (instPk : Option Nat)
    (slugVal slugifiedTitle uuidToken : PyStr) : PyStr :=
  _pre_slug_assign (db.map (fun e => (e.pk, e.slug))) instPk
    slugVal slugifiedTitle uuidToken 240

/-- `_pre_slug` for an `Album` instance (models.py lines 510-511, signal
connected on line 517): max length 240. -/
def Album_assign_slug (db : List Album) (instPk : Option Nat)
    (slugVal slugifiedTitle uuidToken : PyStr) : PyStr :=
  _pre_slug_assign (db.map (fun e => (e.pk, e.slug))) instPk
    slugVal slugifiedTitle uuidToken 240

-- ---------------------------------------------------------------------
-- String ordering (SQL BINARY collation = codepoint order on PyStr)
-- ---------------------------------------------------------------------

/-- Lexicographic strict order on `PyStr` by character codepoint: the
order in which the SQLite BINARY collation (and Python) compare the
strings stored in CharFields. -/
def pyStrLt : PyStr → PyStr → Bool
  | [], [] => false
  | [], _ :: _ => true
  | _ :: _, [] => false
  | a :: as, b :: bs =>
    if a.toNat < b.toNat then true
    else if a.toNat = b.toNat then pyStrLt as bs
    else false

/-- Lexicographic `<=` on `PyStr`. -/
def pyStrLe (x y : PyStr) : Bool := pyStrLt x y || x == y

-- ---------------------------------------------------------------------
-- Staff listing view (main/views.py lines 160-199)
-- ---------------------------------------------------------------------

/-- The comparator realising `order_by("order", "role", "name")` used on
line 185 of main/views.py. -/
def staffViewLe (a b : StaffProfile) : Bool :=
  a.order < b.order || (a.order == b.order &&
    (pyStrLt a.role b.role || (a.role == b.role &&
      pyStrLe a.name b.name)))

/-- The comparator of the ordering asserted by the spec for the displayed
staff listing (HOD first via `-is_hod`, then `order`, `role`, `name` — the
model's `Meta.ordering` on line 379 of main/models.py). -/
def staffClaimLe (a b : StaffProfile) : Bool :=
  (a.is_hod && !b.is_hod) || (a.is_hod == b.is_hod &&
    (a.order < b.order || (a.order == b.order &&
      (pyStrLt a.role b.role || (a.role == b.role &&
        pyStrLe a.name b.name)))))

/-- The search predicate of the staff view (main/views.py lines 173-180). -/
def staff_search_hit (r : StaffProfile) (q : PyStr) : Bool :=
  icontains r.name q || icontains r.email q || icontains r.area q ||
  icontains r.specialization q || icontains r.designation q

/-- The `all_staff` queryset of the public `staff` view (main/views.py
lines 160-199): optional search filter, optional exact role filter, then
`order_by("order", "role", "name")` (line 185), which replaces the model's
default ordering. -/
def staff_view (db : List StaffProfile) (q role : PyStr) :
    List StaffProfile :=
  let qs1 := if !q.isEmpty then db.filter (fun r => staff_search_hit r q)
             else db
  let qs2 := if !role.isEmpty then qs1.filter (fun r => r.role == role)
             else qs1
  List.insertionSort (fun a b => staffViewLe a b = true) qs2

-- ---------------------------------------------------------------------
-- Common context highlight cards (main/views.py lines 63-68, 106-117)
-- ---------------------------------------------------------------------

/-- `_repeat_for_scroll` (main/views.py lines 63-68): an empty list stays
empty; otherwise the list is repeated `ceil(min_items / len(items))`
times. -/
def _repeat_for_scroll {α : Type} (items : List α) (min_items : Nat) :
    List α :=
  if items.isEmpty then []
  else (List.replicate ((min_items + items.length - 1) / items.length)
    items).flatten

/-- The comparator realising `order_by("order", "-created_at")` for
highlight cards (main/views.py line 111). -/
def highlightCardLe (a b : HighlightCard) : Bool :=
  a.order < b.order || (a.order == b.order && b.created_at ≤ a.created_at)

/-- The queryset of main/views.py lines 107-112: active cards, image not
NULL and not empty, ordered by `order` then newest first. -/
def highlight_cards_base (db : List HighlightCard) : List HighlightCard :=
  List.insertionSort (fun a b => highlightCardLe a b = true)
    (((db.filter (fun r => r.is_active)).filter
      (fun r => !(r.image == none))).filter
      (fun r => !(r.image == some [])))

/-- The `highlight_cards` entry of `_common_context` (main/views.py line
116): the base queryset repeated for the scrolling carousel with
`min_items = 8`. -/
def _common_context_highlight_cards (db : List HighlightCard) :
    List HighlightCard :=
  _repeat_for_scroll (highlight_cards_base db) 8

-- ---------------------------------------------------------------------
-- Python int() and the Exam listing view (main/views.py lines 251-282)
-- ---------------------------------------------------------------------

/-- No two consecutive underscores (part of Python's int-literal rule). -/
def noDoubleUnderscore : PyStr → Bool
  | '_' :: '_' :: _ => false
  | _ :: rest => noDoubleUnderscore rest
  | [] => true

/-- The digit part accepted by Python's `int(str)`: nonempty, digits with
single underscores strictly between digits. -/
def intDigitsOk (s : PyStr) : Bool :=
  !s.isEmpty && s.all (fun c => c.isDigit || c == '_') &&
  (match s.head? with | some c => c.isDigit | none => false) &&
  (match s.getLast? with | some c => c.isDigit | none => false) &&
  noDoubleUnderscore s

/-- Python `int(s)` on an already-stripped string: optional sign then an
integer literal; `none` models the `ValueError`. -/
def pyInt (s : PyStr) : Option Int :=
  match s with
  | '+' :: rest =>
    if intDigitsOk rest then
      some ((digitsToNat (rest.filter (fun c => !(c == '_')))) : Int)
    else none
  | '-' :: rest =>
    if intDigitsOk rest then
      some (-((digitsToNat (rest.filter (fun c => !(c == '_')))) : Int))
    else none
  | _ =>
    if intDigitsOk s then
      some ((digitsToNat (s.filter (fun c => !(c == '_')))) : Int)
    else none

/-- A stored `Exam` row (main/models.py lines 173-179). -/
structure Exam where
  pk : Nat
  title : PyStr := []
  course : PyStr := []
  semester : Nat := 1
  exam_date : Date := ⟨2000, 1, 1⟩
  pdf_file : Option PyStr := none
  created_at : Nat := 0
deriving DecidableEq, Repr

/-- The comparator realising `order_by("exam_date", "semester")`
(main/views.py line 273). -/
def exam_upcoming_le (a b : Exam) : Bool :=
  Date.lt a.exam_date b.exam_date ||
    (a.exam_date == b.exam_date && a.semester ≤ b.semester)

/-- The comparator realising `order_by("-exam_date")` (main/views.py line
274). -/
def exam_past_le (a b : Exam) : Bool :=
  Date.le b.exam_date a.exam_date

/-- The `exams` view (main/views.py lines 251-282): optional search on
title/course, a semester filter applied only when `int(semester)` parses
(the `ValueError` is swallowed by `pass`), a from-date filter applied only
when `strptime` parses, then the split into upcoming (date >= today,
ordered by date then semester) and past (date < today, newest first),
each truncated to 50 rows. -/
def exams_view (db : List Exam) (today : Date)
    (q semester dfrom_raw : PyStr) : List Exam × List Exam :=
  let qs1 := if !q.isEmpty then
      db.filter (fun e => icontains e.title q || icontains e.course q)
    else db
  let qs2 := if !semester.isEmpty then
      match pyInt semester with
      | some n => qs1.filter (fun e => ((e.semester : Int) == n))
      | none => qs1
    else qs1
  let qs3 := if !dfrom_raw.isEmpty then
      match strptime_date dfrom_raw with
      | some d => qs2.filter (fun e => Date.le d e.exam_date)
      | none => qs2
    else qs2
  let upcoming := (List.insertionSort (fun a b => exam_upcoming_le a b = true)
      (qs3.filter (fun e => Date.le today e.exam_date))).take 50
  let past := (List.insertionSort (fun a b => exam_past_le a b = true)
      (qs3.filter (fun e => Date.lt e.exam_date today))).take 50
  (upcoming, past)

-- ---------------------------------------------------------------------
-- Event listing view (main/views.py lines 205-236)
-- ---------------------------------------------------------------------

/-- The search predicate of the events view (main/views.py lines
214-220). -/
def events_search_hit (e : Event) (q : PyStr) : Bool :=
  icontains e.title q || icontains e.short_description q ||
  icontains e.description q || icontains e.venue q

/-- The filtered base queryset of the `events` view (main/views.py lines
212-226): optional search, optional category filter, and the date-range
filters `start_at__date__gte=dfrom.date()` / `start_at__date__lte=
dto.date()` applied only when `_parse_date` succeeds. -/
def events_base (db : List Event) (q type_ : PyStr)
    (from_raw to_raw : Option PyStr) : List Event :=
  let qs1 := if !q.isEmpty then db.filter (fun e => events_search_hit e q)
             else db
  let qs2 := if !type_.isEmpty then qs1.filter (fun e => e.category == type_)
             else qs1
  let qs3 := match _parse_date from_raw with
    | some d => qs2.filter (fun e => Date.le d e.start_at.date)
    | none => qs2
  match _parse_date to_raw with
  | some d => qs3.filter (fun e => Date.le e.start_at.date d)
  | none => qs3

/-- The comparator realising `order_by("start_at")` (main/views.py line
228). -/
def event_upcoming_le (a b : Event) : Bool :=
  DateTime.le a.start_at b.start_at

/-- The comparator realising `order_by("-start_at")` (main/views.py line
229). -/
def event_past_le (a b : Event) : Bool :=
  DateTime.le b.start_at a.start_at

/-- The `events` view output (main/views.py lines 228-234): the base
queryset split at `now` into upcoming (soonest first) and past (newest
first), each truncated to 18 rows. -/
def events_view (db : List Event) (now : DateTime) (q type_ : PyStr)
    (from_raw to_raw : Option PyStr) : List Event × List Event :=
  let base := events_base db q type_ from_raw to_raw
  ((List.insertionSort (fun a b => event_upcoming_le a b = true)
      (base.filter (fun e => DateTime.le now e.start_at))).take 18,
   (List.insertionSort (fun a b => event_past_le a b = true)
      (base.filter (fun e => DateTime.lt e.start_at now))).take 18)

-- ---------------------------------------------------------------------
-- Theorems for C4 and C5
-- ---------------------------------------------------------------------

/-- Claim C4: saving a `HighlightCard` that is active and has an image is
rejected with a validation error stating the current count and the cap
whenever the number of other active cards with a non-empty image (the row
being saved excluded) is at least 3; when that count is below 3 the same
save succeeds. -/
theorem C4_highlight_active_cap (db : List HighlightCard)
    (inst : HighlightCardInstance)
    (himg : truthyFile inst.image = true) (hact : inst.is_active = true) :
    (3 ≤ activeImageCount db inst.pk →
      highlight_form_validate db inst =
        some (.capExceeded (activeImageCount db inst.pk) 3)) ∧
    (activeImageCount db inst.pk < 3 →
      highlight_form_validate db inst = none) := by
  constructor
  · intro hge
    simp [highlight_form_validate, clean_image, himg, hact, MAX_ACTIVE, hge]
  · intro hlt
    simp [highlight_form_validate, clean_image, himg, hact, MAX_ACTIVE,
      Nat.not_le.mpr hlt]

/-- Concrete instantiation of `C4_highlight_active_cap`: with three other
active cards with images, activating a fourth card with an image is
rejected with the (3, 3) error; with one of them deactivated, the same save
succeeds. -/
theorem C4_highlight_active_cap_witness :
    (truthyFile (some ['d']) = true) ∧
    highlight_form_validate
      [⟨1, [], [], some ['a'], [], 0, true, 1⟩,
       ⟨2, [], [], some ['b'], [], 0, true, 2⟩,
       ⟨3, [], [], some ['c'], [], 0, true, 3⟩]
      ⟨none, [], [], some ['d'], [], 0, true⟩ =
        some (.capExceeded 3 3) ∧
    highlight_form_validate
      [⟨1, [], [], some ['a'], [], 0, true, 1⟩,
       ⟨2, [], [], some ['b'], [], 0, false, 2⟩,
       ⟨3, [], [], some ['c'], [], 0, true, 3⟩]
      ⟨none, [], [], some ['d'], [], 0, true⟩ = none := by
  refine ⟨by decide, ?_, ?_⟩
  · exact (C4_highlight_active_cap _ _ (by decide) (by decide)).1 (by decide)
  · exact (C4_highlight_active_cap _ _ (by decide) (by decide)).2 (by decide)

/-- Claim C5: saving a `HighlightCard` with no image attached fails
validation with the missing-image error, regardless of whether the card is
active and regardless of the number of existing active cards. -/
theorem C5_highlight_image_required (db : List HighlightCard)
    (inst : HighlightCardInstance)
    (h : truthyFile inst.image = false) :
    highlight_form_validate db inst = some .missingImage := by
  simp [highlight_form_validate, clean_image, h]

/-- Concrete instantiation of `C5_highlight_image_required`: an active card
with no image fails validation even while the cap is not reached. -/
theorem C5_highlight_image_required_witness :
    (truthyFile (none : Option PyStr) = false) ∧
    highlight_form_validate
      [⟨1, [], [], some ['a'], [], 0, true, 1⟩]
      ⟨none, [], [], none, [], 0, true⟩ = some .missingImage := by
  exact ⟨by decide, C5_highlight_image_required _ _ (by decide)⟩

-- ---------------------------------------------------------------------
-- Theorems for C1 (single-HOD invariant)
-- ---------------------------------------------------------------------

/-- Claim C1 as stated is false: on a write with `is_hod = true`, an other
row with `is_hod = true` but a role different from HOD does not keep its
role — the queryset update also rewrites its role to `Professor`.
Concretely: the only other row has role `Associate Professor` and
`is_hod = true`; after the write its role has changed although its role
was not HOD. -/
theorem C1_counterexample :
    ¬ (∀ r ∈ [{ pk := 2, role := StaffRole.ASSOCIATE, is_hod := true :
                StaffProfile }],
        r.role ≠ StaffRole.HOD →
        ∀ r' ∈ _ensure_single_hod
            [{ pk := 2, role := StaffRole.ASSOCIATE, is_hod := true }]
            { pk := some 1, is_hod := true },
          r'.pk = r.pk → r'.role = r.role) := by
  decide

/-- Claim C1 (amended): for every write of a `StaffProfile` whose `is_hod`
is true or whose role is HOD, the rows are updated pointwise: the
triggering row's own row is untouched; every other row that had
`is_hod = true` or role HOD gets `is_hod` cleared and its role set to
`Professor` (even when its previous role was not HOD); every other row
with `is_hod = false` and a non-HOD role is unchanged; and afterwards
every other row has `is_hod = false`. -/
theorem C1_single_hod_update (db : List StaffProfile)
    (inst : StaffProfileInstance)
    (h : inst.is_hod = true ∨ inst.role = StaffRole.HOD) :
    List.Forall₂ (fun r r' =>
      (some r.pk = inst.pk → r' = r) ∧
      (some r.pk ≠ inst.pk →
        ((r.is_hod = true ∨ r.role = StaffRole.HOD) →
          r' = { r with is_hod := false, role := StaffRole.PROFESSOR }) ∧
        (r.is_hod = false → r.role ≠ StaffRole.HOD → r' = r) ∧
        r'.is_hod = false))
      db (_ensure_single_hod db inst) := by
  have hcond : (inst.is_hod || inst.role == StaffRole.HOD) = true := by
    rcases h with h | h <;> simp [h]
  have heq : _ensure_single_hod db inst = db.map (fun r =>
      if !(some r.pk == inst.pk) && (r.is_hod || r.role == StaffRole.HOD)
      then { r with is_hod := false, role := StaffRole.PROFESSOR }
      else r) := by
    unfold _ensure_single_hod
    simp [hcond]
  rw [heq]
  have hR : ∀ r : StaffProfile,
      (some r.pk = inst.pk →
        (if !(some r.pk == inst.pk) &&
            (r.is_hod || r.role == StaffRole.HOD)
         then { r with is_hod := false, role := StaffRole.PROFESSOR }
         else r) = r) ∧
      (some r.pk ≠ inst.pk →
        ((r.is_hod = true ∨ r.role = StaffRole.HOD) →
          (if !(some r.pk == inst.pk) &&
              (r.is_hod || r.role == StaffRole.HOD)
           then { r with is_hod := false, role := StaffRole.PROFESSOR }
           else r) = { r with is_hod := false, role := StaffRole.PROFESSOR }) ∧
        (r.is_hod = false → r.role ≠ StaffRole.HOD →
          (if !(some r.pk == inst.pk) &&
              (r.is_hod || r.role == StaffRole.HOD)
           then { r with is_hod := false, role := StaffRole.PROFESSOR }
           else r) = r) ∧
        ((if !(some r.pk == inst.pk) &&
              (r.is_hod || r.role == StaffRole.HOD)
          then { r with is_hod := false, role := StaffRole.PROFESSOR }
          else r)).is_hod = false) := by
    intro r
    constructor
    · intro hpk
      simp [hpk]
    · intro hpk
      refine ⟨?_, ?_, ?_⟩
      · intro hmatch
        rcases hmatch with hm | hm <;> simp [hpk, hm]
      · intro h1 h2
        simp [hpk, h1, h2]
      · by_cases h1 : r.is_hod = true
        · simp [hpk, h1]
        · by_cases h2 : r.role = StaffRole.HOD
          · simp [hpk, h2]
          · simp [hpk, Bool.eq_false_iff.mp (by simpa using h1), h2]
  have : ∀ l : List StaffProfile, List.Forall₂ (fun r r' =>
      (some r.pk = inst.pk → r' = r) ∧
      (some r.pk ≠ inst.pk →
        ((r.is_hod = true ∨ r.role = StaffRole.HOD) →
          r' = { r with is_hod := false, role := StaffRole.PROFESSOR }) ∧
        (r.is_hod = false → r.role ≠ StaffRole.HOD → r' = r) ∧
        r'.is_hod = false))
      l (l.map (fun r =>
        if !(some r.pk == inst.pk) &&
            (r.is_hod || r.role == StaffRole.HOD)
        then { r with is_hod := false, role := StaffRole.PROFESSOR }
        else r)) := by
    intro l
    induction l with
    | nil => exact .nil
    | cons a t ih => exact .cons (hR a) ih
  exact this db

/-- Concrete instantiation of `C1_single_hod_update`: saving row B (pk 2)
with `is_hod = true` while row A (pk 1) is the current HOD. -/
theorem C1_single_hod_update_witness :
    (({ pk := some 2, is_hod := true : StaffProfileInstance }).is_hod = true) ∧
    List.Forall₂ (fun r r' =>
      (some r.pk = ({ pk := some 2, is_hod := true :
          StaffProfileInstance }).pk → r' = r) ∧
      (some r.pk ≠ ({ pk := some 2, is_hod := true :
          StaffProfileInstance }).pk →
        ((r.is_hod = true ∨ r.role = StaffRole.HOD) →
          r' = { r with is_hod := false, role := StaffRole.PROFESSOR }) ∧
        (r.is_hod = false → r.role ≠ StaffRole.HOD → r' = r) ∧
        r'.is_hod = false))
      [{ pk := 1, is_hod := true, role := StaffRole.HOD }]
      (_ensure_single_hod
        [{ pk := 1, is_hod := true, role := StaffRole.HOD }]
        { pk := some 2, is_hod := true }) :=
  ⟨rfl, C1_single_hod_update _ _ (Or.inl rfl)⟩

-- ---------------------------------------------------------------------
-- Theorem for C2 (AboutImage purge-on-create)
-- ---------------------------------------------------------------------

/-- Claim C2, evaluated at the failing input: starting from one existing
`AboutImage` row (pk 1, file `a`) with `a` in storage, creating a new
`AboutImage` (file `b`) leaves exactly one row — but the old file `a` is
still in storage, because the purge on line 110 of main/models.py is a
queryset bulk delete that never calls `AboutImage.delete`.  The third
conjunct shows the per-inst `AboutImage.delete` would have removed the
file, exhibiting the divergence between the two delete paths. -/
theorem C2_about_purge_keeps_old_file :
    ((AboutImage_save_new
        { rows := [{ pk := 1, image := ['a'] }], storage := [['a']] }
        [] ['b'] [] 2).rows.length = 1) ∧
    (['a'] ∈ (AboutImage_save_new
        { rows := [{ pk := 1, image := ['a'] }], storage := [['a']] }
        [] ['b'] [] 2).storage) ∧
    (['a'] ∉ (AboutImage_delete
        { rows := [{ pk := 1, image := ['a'] }], storage := [['a']] }
        { pk := 1, image := ['a'] }).storage) := by
  decide

-- ---------------------------------------------------------------------
-- Theorems for C7 (Album deletion nulls GalleryMedia references)
-- ---------------------------------------------------------------------

/-- Claim C7: deleting an `Album` keeps every `GalleryMedia` row: the media
table keeps its size, and each previous row survives with every field
unchanged except `album`, which becomes NULL exactly when it referenced
the deleted album. -/
theorem C7_album_delete_set_null (st : GalleryState) (album : Album) :
    ((Album_delete st album).media.length = st.media.length) ∧
    ∀ m ∈ st.media, ∃ m' ∈ (Album_delete st album).media,
      m'.pk = m.pk ∧ m'.media_type = m.media_type ∧ m'.image = m.image ∧
      m'.video = m.video ∧ m'.caption = m.caption ∧ m'.year = m.year ∧
      m'.created_at = m.created_at ∧
      m'.album = (if m.album = some album.pk then none else m.album) := by
  constructor
  · simp [Album_delete]
  · intro m hm
    refine ⟨(fun m : GalleryMedia =>
      if m.album == some album.pk then { m with album := none } else m) m,
      List.mem_map_of_mem _ hm, ?_⟩
    by_cases h : m.album = some album.pk <;> simp [h]

/-- Concrete instantiation of `C7_album_delete_set_null`: deleting album 5
while media row 7 references it and media row 8 references album 6. -/
theorem C7_album_delete_set_null_witness :
    ({ pk := 7, album := some 5, caption := ['x'] : GalleryMedia } ∈
      ({ albums := [{ pk := 5 }, { pk := 6 }],
         media := [{ pk := 7, album := some 5, caption := ['x'] },
                   { pk := 8, album := some 6 }],
         storage := [] : GalleryState }).media) ∧
    ∃ m' ∈ (Album_delete
        { albums := [{ pk := 5 }, { pk := 6 }],
          media := [{ pk := 7, album := some 5, caption := ['x'] },
                    { pk := 8, album := some 6 }],
          storage := [] }
        { pk := 5 }).media,
      m'.pk = 7 ∧ m'.caption = ['x'] ∧ m'.album = none := by
  refine ⟨by decide, ?_⟩
  obtain ⟨-, h2⟩ := C7_album_delete_set_null
    { albums := [{ pk := 5 }, { pk := 6 }],
      media := [{ pk := 7, album := some 5, caption := ['x'] },
                { pk := 8, album := some 6 }],
      storage := [] }
    { pk := 5 }
  obtain ⟨m', hm', hpk, -, -, -, hcap, -, -, halb⟩ :=
    h2 { pk := 7, album := some 5, caption := ['x'] } (by decide)
  exact ⟨m', hm', hpk, hcap, by simpa using halb⟩

-- ---------------------------------------------------------------------
-- Theorems for C3 (slug uniqueness over two saves)
-- ---------------------------------------------------------------------

/-- Helper for C3: the two-save scenario of `_pre_slug_assign` at an
arbitrary max length.  Saving a first row with empty slug and slugified
title `st` over an empty table yields `st[:maxLen]`; saving a second row
with the same title against a table holding the first slug yields a
distinct slug, namely the re-truncated base suffixed `-2`, or `-3` in the
degenerate case where the `-2` candidate equals the first slug. -/
theorem two_saves_slug (st tok : PyStr) (h : st ≠ []) (maxLen : Nat)
    (hm : maxLen ≠ 0) (p : Nat) :
    _pre_slug_assign [] none [] st tok maxLen = st.take maxLen ∧
    _pre_slug_assign [(p, st.take maxLen)] none [] st tok maxLen ≠
      st.take maxLen ∧
    _pre_slug_assign [(p, st.take maxLen)] none [] st tok maxLen =
      (if st.take (maxLen - 2) ++ ['-', '2'] = st.take maxLen
       then st.take (maxLen - 2) ++ ['-', '3']
       else st.take (maxLen - 2) ++ ['-', '2']) := by
  have htm : st.take maxLen ≠ [] := by
    simp [List.take_eq_nil_iff, hm, h]
  have hcut : (st.take maxLen).take (maxLen - 2) = st.take (maxLen - 2) := by
    rw [List.take_take, Nat.min_eq_left (Nat.sub_le _ _)]
  have h1 : _pre_slug_assign [] none [] st tok maxLen = st.take maxLen := by
    simp [_pre_slug_assign, _unique_slug, hm, htm, _unique_slug_loop]
  have hkey : _pre_slug_assign [(p, st.take maxLen)] none [] st tok maxLen =
      _unique_slug_loop [st.take maxLen] (st.take maxLen) maxLen 3 2
        (st.take maxLen) := by
    simp [_pre_slug_assign, _unique_slug, hm, htm]
  have hrepr2 : (Nat.repr 2).data = ['2'] := by decide
  have hrepr3 : (Nat.repr 3).data = ['3'] := by decide
  have hlen2 : (Nat.repr 2).length = 1 := by decide
  have hlen3 : (Nat.repr 3).length = 1 := by decide
  have step1 : _unique_slug_loop [st.take maxLen] (st.take maxLen) maxLen 3 2
      (st.take maxLen) =
      _unique_slug_loop [st.take maxLen] (st.take maxLen) maxLen 2 3
        (st.take (maxLen - 2) ++ ['-', '2']) := by
    rw [show (3 : Nat) = 2 + 1 from rfl, _unique_slug_loop]
    simp [hrepr2, hlen2, hcut]
  by_cases hc : st.take (maxLen - 2) ++ ['-', '2'] = st.take maxLen
  · -- degenerate case: the "-2" candidate is the first slug itself
    have step2 : _unique_slug_loop [st.take maxLen] (st.take maxLen) maxLen 2 3
        (st.take (maxLen - 2) ++ ['-', '2']) =
        _unique_slug_loop [st.take maxLen] (st.take maxLen) maxLen 1 4
          (st.take (maxLen - 2) ++ ['-', '3']) := by
      rw [show (2 : Nat) = 1 + 1 from rfl, _unique_slug_loop]
      simp [hc, hrepr3, hlen3, hcut]
    have hne3 : st.take (maxLen - 2) ++ ['-', '3'] ≠ st.take maxLen := by
      intro heq
      have := List.append_cancel_left (heq.trans hc.symm)
      simp at this
    have step3 : _unique_slug_loop [st.take maxLen] (st.take maxLen) maxLen 1 4
        (st.take (maxLen - 2) ++ ['-', '3']) =
        st.take (maxLen - 2) ++ ['-', '3'] := by
      rw [show (1 : Nat) = 0 + 1 from rfl, _unique_slug_loop]
      simp [hne3]
    refine ⟨h1, ?_, ?_⟩
    · rw [hkey, step1, step2, step3]
      exact hne3
    · rw [hkey, step1, step2, step3, if_pos hc]
  · have step2 : _unique_slug_loop [st.take maxLen] (st.take maxLen) maxLen 2 3
        (st.take (maxLen - 2) ++ ['-', '2']) =
        st.take (maxLen - 2) ++ ['-', '2'] := by
      rw [show (2 : Nat) = 1 + 1 from rfl, _unique_slug_loop]
      simp [hc]
    refine ⟨h1, ?_, ?_⟩
    · rw [hkey, step1, step2]
      exact hc
    · rw [hkey, step1, step2, if_neg hc]

/-- Claim C3: for each slugged entity type (Event with max length 220,
News and Album with max length 240), saving two rows with the same
(nonempty) slugified source title and no supplied slug yields two distinct
slugs: the first is the slugified title truncated to the type's maximum
length, and the second is that base re-truncated to make room for the
suffix and suffixed `-2` (moving on to `-3` on the further collision in
which the `-2` candidate itself equals the first slug), the uniqueness
check excluding the row being saved. -/
theorem C3_two_saves_distinct_slugs (st tok : PyStr) (h : st ≠ []) :
    (Event_assign_slug [] none [] st tok = st.take 220 ∧
     ∀ e : Event, e.slug = st.take 220 →
       Event_assign_slug [e] none [] st tok ≠ st.take 220 ∧
       Event_assign_slug [e] none [] st tok =
         (if st.take 218 ++ ['-', '2'] = st.take 220
          then st.take 218 ++ ['-', '3']
          else st.take 218 ++ ['-', '2'])) ∧
    (News_assign_slug [] none [] st tok = st.take 240 ∧
     ∀ e : News, e.slug = st.take 240 →
       News_assign_slug [e] none [] st tok ≠ st.take 240 ∧
       News_assign_slug [e] none [] st tok =
         (if st.take 238 ++ ['-', '2'] = st.take 240
          then st.take 238 ++ ['-', '3']
          else st.take 238 ++ ['-', '2'])) ∧
    (Album_assign_slug [] none [] st tok = st.take 240 ∧
     ∀ e : Album, e.slug = st.take 240 →
       Album_assign_slug [e] none [] st tok ≠ st.take 240 ∧
       Album_assign_slug [e] none [] st tok =
         (if st.take 238 ++ ['-', '2'] = st.take 240
          then st.take 238 ++ ['-', '3']
          else st.take 238 ++ ['-', '2'])) := by
  refine ⟨⟨?_, ?_⟩, ⟨?_, ?_⟩, ⟨?_, ?_⟩⟩
  · simpa [Event_assign_slug] using (two_saves_slug st tok h 220 (by decide) 0).1
  · intro e he
    have h2 := two_saves_slug st tok h 220 (by decide) e.pk
    have heq : Event_assign_slug [e] none [] st tok =
        _pre_slug_assign [(e.pk, st.take 220)] none [] st tok 220 := by
      simp [Event_assign_slug, he]
    exact ⟨by rw [heq]; exact h2.2.1, by rw [heq]; simpa using h2.2.2⟩
  · simpa [News_assign_slug] using (two_saves_slug st tok h 240 (by decide) 0).1
  · intro e he
    have h2 := two_saves_slug st tok h 240 (by decide) e.pk
    have heq : News_assign_slug [e] none [] st tok =
        _pre_slug_assign [(e.pk, st.take 240)] none [] st tok 240 := by
      simp [News_assign_slug, he]
    exact ⟨by rw [heq]; exact h2.2.1, by rw [heq]; simpa using h2.2.2⟩
  · simpa [Album_assign_slug] using (two_saves_slug st tok h 240 (by decide) 0).1
  · intro e he
    have h2 := two_saves_slug st tok h 240 (by decide) e.pk
    have heq : Album_assign_slug [e] none [] st tok =
        _pre_slug_assign [(e.pk, st.take 240)] none [] st tok 240 := by
      simp [Album_assign_slug, he]
    exact ⟨by rw [heq]; exact h2.2.1, by rw [heq]; simpa using h2.2.2⟩

/-- Concrete instantiation of `C3_two_saves_distinct_slugs`: with slugified
title `hi`, the first Event save gets slug `hi` and the second save of the
same title gets `hi-2`. -/
theorem C3_two_saves_distinct_slugs_witness :
    (['h', 'i'] : PyStr) ≠ [] ∧
    Event_assign_slug [] none [] ['h', 'i'] [] = ['h', 'i'] ∧
    Event_assign_slug [{ pk := 1, slug := ['h', 'i'] }] none []
      ['h', 'i'] [] = ['h', 'i', '-', '2'] := by
  have hmain := C3_two_saves_distinct_slugs ['h', 'i'] [] (by decide)
  refine ⟨by decide, ?_, ?_⟩
  · rw [hmain.1.1]
    decide
  · rw [(hmain.1.2 { pk := 1, slug := ['h', 'i'] } (by decide)).2]
    decide

-- ---------------------------------------------------------------------
-- Theorems for C8 (malformed semester filter is silently dropped)
-- ---------------------------------------------------------------------

/-- Claim C8: for every exam table, today and other parameters, filtering
with a semester value that does not parse as a Python int produces exactly
the result of the identical query without a semester parameter (the
`ValueError` is swallowed and no filter is applied). -/
theorem C8_exams_bad_semester_ignored (db : List Exam) (today : Date)
    (q dfrom_raw semester : PyStr) (h : pyInt semester = none) :
    exams_view db today q semester dfrom_raw =
      exams_view db today q [] dfrom_raw := by
  by_cases hs : semester = []
  · rw [hs]
  · have hne : semester.isEmpty = false := by
      simp [List.isEmpty_iff, hs]
    simp [exams_view, hne, h]

/-- Concrete instantiation of `C8_exams_bad_semester_ignored` at
`semester = "abc"`. -/
theorem C8_exams_bad_semester_ignored_witness :
    pyInt ['a', 'b', 'c'] = none ∧
    exams_view [{ pk := 1, semester := 3, exam_date := ⟨2024, 5, 1⟩ }]
      ⟨2024, 1, 1⟩ [] ['a', 'b', 'c'] [] =
    exams_view [{ pk := 1, semester := 3, exam_date := ⟨2024, 5, 1⟩ }]
      ⟨2024, 1, 1⟩ [] [] [] :=
  ⟨by decide, C8_exams_bad_semester_ignored _ _ _ _ _ (by decide)⟩

-- ---------------------------------------------------------------------
-- Theorems for C9 (inclusive event date range)
-- ---------------------------------------------------------------------

/-- Claim C9: when both `from` and `to` parse as dates, an event is in the
filtered base queryset of the events view exactly when it is stored and
its start date lies in the inclusive range: on-boundary start dates are
included, out-of-range ones excluded. -/
theorem C9_events_inclusive_date_range (db : List Event) (fr toS : PyStr)
    (d1 d2 : Date) (h1 : _parse_date (some fr) = some d1)
    (h2 : _parse_date (some toS) = some d2) :
    ∀ e, e ∈ events_base db [] [] (some fr) (some toS) ↔
      (e ∈ db ∧ Date.le d1 e.start_at.date = true ∧
        Date.le e.start_at.date d2 = true) := by
  intro e
  simp only [events_base, h1, h2, List.mem_filter, List.isEmpty_nil,
    Bool.not_true, if_neg, Bool.false_eq_true, if_false, and_assoc]

/-- Concrete instantiation of `C9_events_inclusive_date_range` with the
range 2024-01-01 to 2024-12-31: events starting on each boundary are
returned, an event starting the day after the upper bound is not. -/
theorem C9_events_inclusive_date_range_witness :
    _parse_date (some ['2', '0', '2', '4', '-', '0', '1', '-', '0', '1']) =
      some ⟨2024, 1, 1⟩ ∧
    _parse_date (some ['2', '0', '2', '4', '-', '1', '2', '-', '3', '1']) =
      some ⟨2024, 12, 31⟩ ∧
    ({ pk := 1, start_at := ⟨⟨2024, 1, 1⟩, 540⟩ : Event } ∈
      events_base
        [{ pk := 1, start_at := ⟨⟨2024, 1, 1⟩, 540⟩ },
         { pk := 2, start_at := ⟨⟨2024, 12, 31⟩, 0⟩ },
         { pk := 3, start_at := ⟨⟨2025, 1, 1⟩, 0⟩ }] [] []
        (some ['2', '0', '2', '4', '-', '0', '1', '-', '0', '1'])
        (some ['2', '0', '2', '4', '-', '1', '2', '-', '3', '1'])) ∧
    ({ pk := 2, start_at := ⟨⟨2024, 12, 31⟩, 0⟩ : Event } ∈
      events_base
        [{ pk := 1, start_at := ⟨⟨2024, 1, 1⟩, 540⟩ },
         { pk := 2, start_at := ⟨⟨2024, 12, 31⟩, 0⟩ },
         { pk := 3, start_at := ⟨⟨2025, 1, 1⟩, 0⟩ }] [] []
        (some ['2', '0', '2', '4', '-', '0', '1', '-', '0', '1'])
        (some ['2', '0', '2', '4', '-', '1', '2', '-', '3', '1'])) ∧
    ({ pk := 3, start_at := ⟨⟨2025, 1, 1⟩, 0⟩ : Event } ∉
      events_base
        [{ pk := 1, start_at := ⟨⟨2024, 1, 1⟩, 540⟩ },
         { pk := 2, start_at := ⟨⟨2024, 12, 31⟩, 0⟩ },
         { pk := 3, start_at := ⟨⟨2025, 1, 1⟩, 0⟩ }] [] []
        (some ['2', '0', '2', '4', '-', '0', '1', '-', '0', '1'])
        (some ['2', '0', '2', '4', '-', '1', '2', '-', '3', '1'])) := by
  have hiff := C9_events_inclusive_date_range
    [{ pk := 1, start_at := ⟨⟨2024, 1, 1⟩, 540⟩ },
     { pk := 2, start_at := ⟨⟨2024, 12, 31⟩, 0⟩ },
     { pk := 3, start_at := ⟨⟨2025, 1, 1⟩, 0⟩ }]
    ['2', '0', '2', '4', '-', '0', '1', '-', '0', '1']
    ['2', '0', '2', '4', '-', '1', '2', '-', '3', '1']
    ⟨2024, 1, 1⟩ ⟨2024, 12, 31⟩ (by decide) (by decide)
  refine ⟨by decide, by decide, ?_, ?_, ?_⟩
  · exact (hiff _).mpr ⟨by decide, by decide, by decide⟩
  · exact (hiff _).mpr ⟨by decide, by decide, by decide⟩
  · intro hmem
    have h3 := (hiff _).mp hmem
    have : Date.le ({ pk := 3, start_at := ⟨⟨2025, 1, 1⟩, 0⟩ :
        Event }).start_at.date ⟨2024, 12, 31⟩ = true := h3.2.2
    simp [Date.le] at this

-- ---------------------------------------------------------------------
-- Order lemmas for the sort comparators
-- ---------------------------------------------------------------------

/-- `Char.toNat` is injective. -/
theorem char_toNat_inj {a b : Char} (h : a.toNat = b.toNat) : a = b :=
  Char.eq_of_val_eq (by exact UInt32.toNat.inj h)

/-- `pyStrLt` is transitive. -/
theorem pyStrLt_trans : ∀ (a b c : PyStr), pyStrLt a b = true →
    pyStrLt b c = true → pyStrLt a c = true := by
  intro a
  induction a with
  | nil =>
    intro b c hab hbc
    cases b with
    | nil => simp [pyStrLt] at hab
    | cons y ys =>
      cases c with
      | nil => simp [pyStrLt] at hbc
      | cons z zs => simp [pyStrLt]
  | cons x xs ih =>
    intro b c hab hbc
    cases b with
    | nil => simp [pyStrLt] at hab
    | cons y ys =>
      cases c with
      | nil => simp [pyStrLt] at hbc
      | cons z zs =>
        simp only [pyStrLt] at hab hbc ⊢
        by_cases h1 : x.toNat < y.toNat
        · by_cases h2 : y.toNat < z.toNat
          · simp [show x.toNat < z.toNat by omega]
          · rw [if_neg h2] at hbc
            by_cases h2e : y.toNat = z.toNat
            · rw [if_pos h2e] at hbc
              simp [show x.toNat < z.toNat by omega]
            · rw [if_neg h2e] at hbc
              exact absurd hbc (by simp)
        · rw [if_neg h1] at hab
          by_cases h1e : x.toNat = y.toNat
          · rw [if_pos h1e] at hab
            by_cases h2 : y.toNat < z.toNat
            · simp [show x.toNat < z.toNat by omega]
            · rw [if_neg h2] at hbc
              by_cases h2e : y.toNat = z.toNat
              · rw [if_pos h2e] at hbc
                rw [if_neg (show ¬ x.toNat < z.toNat by omega),
                  if_pos (show x.toNat = z.toNat by omega)]
                exact ih ys zs hab hbc
              · rw [if_neg h2e] at hbc
                exact absurd hbc (by simp)
          · rw [if_neg h1e] at hab
            exact absurd hab (by simp)

/-- Trichotomy for `pyStrLt`. -/
theorem pyStrLt_trichotomy : ∀ (a b : PyStr),
    pyStrLt a b = true ∨ a = b ∨ pyStrLt b a = true := by
  intro a
  induction a with
  | nil =>
    intro b
    cases b with
    | nil => exact Or.inr (Or.inl rfl)
    | cons y ys => exact Or.inl (by simp [pyStrLt])
  | cons x xs ih =>
    intro b
    cases b with
    | nil => exact Or.inr (Or.inr (by simp [pyStrLt]))
    | cons y ys =>
      rcases Nat.lt_trichotomy x.toNat y.toNat with h | h | h
      · exact Or.inl (by simp [pyStrLt, h])
      · have hxy : x = y := char_toNat_inj h
        rcases ih ys with h2 | h2 | h2
        · refine Or.inl ?_
          simp only [pyStrLt]
          rw [if_neg (show ¬ x.toNat < y.toNat by omega), if_pos h]
          exact h2
        · exact Or.inr (Or.inl (by rw [hxy, h2]))
        · refine Or.inr (Or.inr ?_)
          simp only [pyStrLt]
          rw [if_neg (show ¬ y.toNat < x.toNat by omega),
            if_pos (show y.toNat = x.toNat by omega)]
          exact h2
      · exact Or.inr (Or.inr (by simp [pyStrLt, h]))

/-- Totality of `pyStrLe`. -/
theorem pyStrLe_total (a b : PyStr) :
    pyStrLe a b = true ∨ pyStrLe b a = true := by
  rcases pyStrLt_trichotomy a b with h | h | h
  · exact Or.inl (by simp [pyStrLe, h])
  · exact Or.inl (by simp [pyStrLe, h])
  · exact Or.inr (by simp [pyStrLe, h])

/-- Transitivity of `pyStrLe`. -/
theorem pyStrLe_trans (a b c : PyStr) : pyStrLe a b = true →
    pyStrLe b c = true → pyStrLe a c = true := by
  simp only [pyStrLe, Bool.or_eq_true, beq_iff_eq]
  rintro (h1 | h1) (h2 | h2)
  · exact Or.inl (pyStrLt_trans _ _ _ h1 h2)
  · subst h2
    exact Or.inl h1
  · subst h1
    exact Or.inl h2
  · subst h1
    exact Or.inr h2

/-- Totality of the staff-view comparator. -/
theorem staffViewLe_total : ∀ a b : StaffProfile,
    staffViewLe a b = true ∨ staffViewLe b a = true := by
  intro a b
  simp only [staffViewLe, Bool.or_eq_true, Bool.and_eq_true, beq_iff_eq,
    decide_eq_true_eq]
  rcases Nat.lt_trichotomy a.order b.order with h | h | h
  · exact Or.inl (Or.inl h)
  · rcases pyStrLt_trichotomy a.role b.role with h2 | h2 | h2
    · exact Or.inl (Or.inr ⟨h, Or.inl h2⟩)
    · rcases pyStrLe_total a.name b.name with h3 | h3
      · exact Or.inl (Or.inr ⟨h, Or.inr ⟨h2, h3⟩⟩)
      · exact Or.inr (Or.inr ⟨h.symm, Or.inr ⟨h2.symm, h3⟩⟩)
    · exact Or.inr (Or.inr ⟨h.symm, Or.inl h2⟩)
  · exact Or.inr (Or.inl h)

/-- Transitivity of the staff-view comparator. -/
theorem staffViewLe_trans : ∀ a b c : StaffProfile,
    staffViewLe a b = true → staffViewLe b c = true →
    staffViewLe a c = true := by
  intro a b c hab hbc
  simp only [staffViewLe, Bool.or_eq_true, Bool.and_eq_true, beq_iff_eq,
    decide_eq_true_eq] at hab hbc ⊢
  rcases hab with h1 | ⟨h1, h1r⟩
  · rcases hbc with h2 | ⟨h2, h2r⟩
    · exact Or.inl (by omega)
    · exact Or.inl (by omega)
  · rcases hbc with h2 | ⟨h2, h2r⟩
    · exact Or.inl (by omega)
    · refine Or.inr ⟨h1.trans h2, ?_⟩
      rcases h1r with hr1 | ⟨hr1, hn1⟩
      · rcases h2r with hr2 | ⟨hr2, hn2⟩
        · exact Or.inl (pyStrLt_trans _ _ _ hr1 hr2)
        · exact Or.inl (by rw [← hr2]; exact hr1)
      · rcases h2r with hr2 | ⟨hr2, hn2⟩
        · exact Or.inl (by rw [hr1]; exact hr2)
        · exact Or.inr ⟨hr1.trans hr2, pyStrLe_trans _ _ _ hn1 hn2⟩

/-- Totality of the highlight-card comparator. -/
theorem highlightCardLe_total : ∀ a b : HighlightCard,
    highlightCardLe a b = true ∨ highlightCardLe b a = true := by
  intro a b
  simp only [highlightCardLe, Bool.or_eq_true, Bool.and_eq_true,
    beq_iff_eq, decide_eq_true_eq]
  rcases Nat.lt_trichotomy a.order b.order with h | h | h
  · exact Or.inl (Or.inl h)
  · rcases Nat.le_total b.created_at a.created_at with h2 | h2
    · exact Or.inl (Or.inr ⟨h, h2⟩)
    · exact Or.inr (Or.inr ⟨h.symm, h2⟩)
  · exact Or.inr (Or.inl h)

/-- Transitivity of the highlight-card comparator. -/
theorem highlightCardLe_trans : ∀ a b c : HighlightCard,
    highlightCardLe a b = true → highlightCardLe b c = true →
    highlightCardLe a c = true := by
  intro a b c hab hbc
  simp only [highlightCardLe, Bool.or_eq_true, Bool.and_eq_true,
    beq_iff_eq, decide_eq_true_eq] at hab hbc ⊢
  rcases hab with h1 | ⟨h1, h1c⟩ <;> rcases hbc with h2 | ⟨h2, h2c⟩
  · exact Or.inl (by omega)
  · exact Or.inl (by omega)
  · exact Or.inl (by omega)
  · exact Or.inr ⟨by omega, by omega⟩

-- ---------------------------------------------------------------------
-- Theorems for C6 (public staff listing ordering)
-- ---------------------------------------------------------------------

/-- Claim C6 as stated is false: the public staff view sorts by
`order_by("order", "role", "name")` with no HOD-first key, so with an HOD
of `order` 5 and a professor of `order` 1 the listing is not sorted by the
claimed HOD-first ordering (the professor comes first). -/
theorem C6_counterexample :
    ¬ List.Pairwise (fun a b => staffClaimLe a b = true)
      (staff_view
        [{ pk := 1, name := ['A'], role := StaffRole.HOD, is_hod := true,
           order := 5 },
         { pk := 2, name := ['B'], role := StaffRole.PROFESSOR,
           order := 1 }]
        [] []) := by
  decide

/-- Claim C6 (amended): the public staff view's listing contains exactly
the stored rows passing the optional search and role filters, ordered by
ascending `order`, then `role`, then `name` — the HOD flag does not
participate in the displayed ordering (the HOD-first key exists only in
the model's default ordering, which the view's explicit `order_by`
replaces). -/
theorem C6_staff_view_listing (db : List StaffProfile) (q role : PyStr) :
    (∀ r, r ∈ staff_view db q role ↔
      (r ∈ db ∧ (q ≠ [] → staff_search_hit r q = true) ∧
        (role ≠ [] → r.role = role))) ∧
    List.Pairwise (fun a b => staffViewLe a b = true)
      (staff_view db q role) := by
  constructor
  · intro r
    by_cases hq : q = []
    · by_cases hr : role = []
      · simp [staff_view, List.mem_insertionSort, hq, hr]
      · have hr' : role.isEmpty = false := by simp [List.isEmpty_iff, hr]
        simp [staff_view, List.mem_insertionSort, hq, hr, hr',
          List.mem_filter, beq_iff_eq, and_assoc]
    · have hq' : q.isEmpty = false := by simp [List.isEmpty_iff, hq]
      by_cases hr : role = []
      · simp [staff_view, List.mem_insertionSort, hq, hq', hr,
          List.mem_filter, and_assoc]
      · have hr' : role.isEmpty = false := by simp [List.isEmpty_iff, hr]
        simp only [staff_view, List.mem_insertionSort, hq', hr',
          Bool.not_false, if_true, List.mem_filter, beq_iff_eq, hq, hr,
          ne_eq, not_false_eq_true, forall_true_left, and_assoc]
  · haveI : IsTotal StaffProfile (fun a b => staffViewLe a b = true) :=
      ⟨staffViewLe_total⟩
    haveI : IsTrans StaffProfile (fun a b => staffViewLe a b = true) :=
      ⟨staffViewLe_trans⟩
    exact List.sorted_insertionSort _ _

/-- Concrete instantiation of `C6_staff_view_listing`: a stored row shows
up in the unfiltered listing. -/
theorem C6_staff_view_listing_witness :
    ({ pk := 1, order := 2 : StaffProfile } ∈
      staff_view [{ pk := 1, order := 2 }] [] []) := by
  have h := (C6_staff_view_listing [{ pk := 1, order := 2 }] [] []).1
    { pk := 1, order := 2 }
  exact h.mpr ⟨by decide, by simp, by simp⟩

-- ---------------------------------------------------------------------
-- Theorems for C10 (common-context highlight cards)
-- ---------------------------------------------------------------------

/-- Length of a flattened replicate. -/
theorem flatten_replicate_length {α : Type} (n : Nat) (l : List α) :
    ((List.replicate n l).flatten).length = n * l.length := by
  induction n with
  | zero => simp
  | succ k ih => simp [List.replicate_succ, ih, Nat.succ_mul, Nat.add_comm]

/-- Claim C10: the `highlight_cards` list of the shared common context
holds exactly the active cards with a non-empty image; the underlying
base list is ordered by `order` then most-recent first; when no such card
exists the list is empty; otherwise the list is the base list repeated
whole, with total length at least 8 and with one repetition fewer falling
short of 8. -/
theorem C10_highlight_cards_context (db : List HighlightCard) :
    (∀ c, c ∈ _common_context_highlight_cards db ↔
      (c ∈ db ∧ c.is_active = true ∧ c.image ≠ none ∧
        c.image ≠ some [])) ∧
    List.Pairwise (fun a b => highlightCardLe a b = true)
      (highlight_cards_base db) ∧
    (highlight_cards_base db = [] →
      _common_context_highlight_cards db = []) ∧
    (highlight_cards_base db ≠ [] →
      ∃ n, 1 ≤ n ∧
        _common_context_highlight_cards db =
          (List.replicate n (highlight_cards_base db)).flatten ∧
        8 ≤ (_common_context_highlight_cards db).length ∧
        (_common_context_highlight_cards db).length -
          (highlight_cards_base db).length < 8) := by
  have hbase_mem : ∀ c, (c ∈ highlight_cards_base db ↔
      (c ∈ db ∧ c.is_active = true ∧ c.image ≠ none ∧
        c.image ≠ some [])) := by
    intro c
    simp [highlight_cards_base, List.mem_insertionSort, List.mem_filter,
      and_assoc]
    tauto
  have hres : ∀ c, (c ∈ _common_context_highlight_cards db ↔
      c ∈ highlight_cards_base db) := by
    intro c
    unfold _common_context_highlight_cards _repeat_for_scroll
    by_cases hb : highlight_cards_base db = []
    · simp [hb]
    · have hbe : (highlight_cards_base db).isEmpty = false := by
        simp [List.isEmpty_iff, hb]
      have hn : (7 + (highlight_cards_base db).length) /
          (highlight_cards_base db).length ≠ 0 := by
        have hlen : 1 ≤ (highlight_cards_base db).length :=
          List.length_pos.mpr hb
        have := Nat.div_pos
          (show (highlight_cards_base db).length ≤
            7 + (highlight_cards_base db).length by omega)
          (show 0 < (highlight_cards_base db).length by omega)
        omega
      simp [hbe, List.mem_flatten, List.mem_replicate, hn]
  refine ⟨fun c => (hres c).trans (hbase_mem c), ?_, ?_, ?_⟩
  · haveI : IsTotal HighlightCard (fun a b => highlightCardLe a b = true) :=
      ⟨highlightCardLe_total⟩
    haveI : IsTrans HighlightCard (fun a b => highlightCardLe a b = true) :=
      ⟨highlightCardLe_trans⟩
    exact List.sorted_insertionSort _ _
  · intro hb
    unfold _common_context_highlight_cards _repeat_for_scroll
    simp [hb]
  · intro hb
    have hbe : (highlight_cards_base db).isEmpty = false := by
      simp [List.isEmpty_iff, hb]
    have hlen : 1 ≤ (highlight_cards_base db).length :=
      List.length_pos.mpr hb
    have heq : _common_context_highlight_cards db =
        (List.replicate ((8 + (highlight_cards_base db).length - 1) /
          (highlight_cards_base db).length)
          (highlight_cards_base db)).flatten := by
      unfold _common_context_highlight_cards _repeat_for_scroll
      simp [hbe]
    have hlen_eq : (_common_context_highlight_cards db).length =
        ((8 + (highlight_cards_base db).length - 1) /
          (highlight_cards_base db).length) *
          (highlight_cards_base db).length := by
      rw [heq, flatten_replicate_length]
    obtain ⟨m, hmlt, hmeq⟩ : ∃ m, m < (highlight_cards_base db).length ∧
        m + (highlight_cards_base db).length *
          ((8 + (highlight_cards_base db).length - 1) /
            (highlight_cards_base db).length) =
          8 + (highlight_cards_base db).length - 1 :=
      ⟨_, Nat.mod_lt _ (by omega), Nat.mod_add_div _ _⟩
    obtain ⟨P, hP⟩ : ∃ P, (highlight_cards_base db).length *
        ((8 + (highlight_cards_base db).length - 1) /
          (highlight_cards_base db).length) = P := ⟨_, rfl⟩
    rw [hP] at hmeq
    have hlen_eq2 : (_common_context_highlight_cards db).length = P := by
      rw [hlen_eq, Nat.mul_comm, hP]
    refine ⟨(8 + (highlight_cards_base db).length - 1) /
      (highlight_cards_base db).length,
      Nat.div_pos (by omega) (by omega), heq, ?_, ?_⟩
    · rw [hlen_eq2]
      omega
    · rw [hlen_eq2]
      omega

/-- Concrete instantiation of `C10_highlight_cards_context`: a single
active card with an image is repeated to length at least 8. -/
theorem C10_highlight_cards_context_witness :
    highlight_cards_base [⟨1, [], [], some ['a'], [], 0, true, 0⟩] ≠ [] ∧
    8 ≤ (_common_context_highlight_cards
      [⟨1, [], [], some ['a'], [], 0, true, 0⟩]).length := by
  refine ⟨by decide, ?_⟩
  obtain ⟨n, -, -, h8, -⟩ :=
    (C10_highlight_cards_context
      [⟨1, [], [], some ['a'], [], 0, true, 0⟩]).2.2.2 (by decide)
  exact h8
